import Mathlib

/-!
Shallow embedding of the wunderground2prom exporters
(`src/wunderground.py` and `src/river_flow.py`).

Network I/O and logging are abstracted away: every fetch outcome is an
explicit input to the embedded function, and the mutable module-level
state (prometheus gauge children, the previous-value caches, the
success counters) is threaded through explicit state records.  Machine
floats are embedded as exact rationals.  Raising an exception is made
explicit as a Boolean flag in the result of a step (the callers in the
`while True` loops of both programs catch every exception).
-/

namespace W2P

/-- JSON-like field value appearing in the weather observation dict:
a number, a non-numeric string, or null. -/
inductive JVal where
  | num (q : ℚ)
  | str (s : String)
  | null
  deriving DecidableEq, Repr

/-- Metric store for one station: association list from series key to
the current gauge value.  A `labels` call on a prometheus gauge creates
the child with value `0` if it does not exist yet; `set` overwrites. -/
abbrev MStore := List (String × ℚ)

/-- Current value of a series, `none` when the series was never created. -/
def lookupSeries (store : MStore) (name : String) : Option ℚ :=
  match store with
  | [] => none
  | (n, v) :: rest => if n = name then some v else lookupSeries rest name

/-- Model of `Gauge.labels(...)`: create the child at value 0 if absent. -/
def createSeries (store : MStore) (name : String) : MStore :=
  match lookupSeries store name with
  | some _ => store
  | none => store ++ [(name, 0)]

/-- Model of `gauge.set(value)` on a labeled child. -/
def setSeries (store : MStore) (name : String) (v : ℚ) : MStore :=
  match store with
  | [] => [(name, v)]
  | (n, w) :: rest => if n = name then (n, v) :: rest else (n, w) :: setSeries rest name v

/-- Weather observation dict returned by `get_data` (after the
`metric` sub-dict has been merged in), as an association list. -/
abbrev WData := List (String × JVal)

/-- Dict lookup `data[key]`: `none` models the `KeyError` branch. -/
def lookupJ (data : WData) (key : String) : Option JVal :=
  match data with
  | [] => none
  | (k, v) :: rest => if k = key then some v else lookupJ rest key

/-- Keys of the `PROPS` table of `wunderground.py`, in dict insertion
order; each key denotes one labeled series for the station. -/
def PROPS_KEYS : List String :=
  ["temp", "dewpt", "heatIndex", "windChill", "humidity",
   "precipRate", "precipTotal", "windSpeed", "windGust", "winddir",
   "uv", "solarRadiation", "pressure", "station_data_age"]

/-- Keys whose values serve as fallback for temperature change
detection when `temp` itself is absent. -/
def TEMP_FALLBACK_KEYS : List String := ["dewpt", "heatIndex", "windChill"]

/-- Health monitoring series of `wunderground.py` for one station. -/
def HEALTH_KEYS : List String :=
  ["last_fetch_time", "last_fetch_duration", "successful_requests_total",
   "temperature_last_change", "station_data_age"]

/-- The module-level constant `PRESSURE_OFFSET = 0`. -/
def PRESSURE_OFFSET : ℚ := 0

/-- Mutable per-station state of `wunderground.py`:
`previous_temperatures[station_id]`,
`successful_request_counts[station_id]` (absent entry read as 0 via
`.get`), and the gauge children of this station. -/
structure WState where
  previous_temperature : Option JVal
  successful_request_count : ℕ
  store : MStore
  deriving DecidableEq, Repr

/-- Result of one `get_wunderground(station)` call: the state after the
call, whether the call raised an exception that escapes to the caller,
and how many times the bare `except` around `gauge.set` fired (each
firing executes `import pdb; pdb.set_trace()` and emits no log). -/
structure WResult where
  state : WState
  raised : Bool
  debugger_hits : ℕ
  deriving DecidableEq, Repr

/-- State of the `for key, gauge in metrics.items()` loop. -/
structure FieldLoopSt where
  store : MStore
  has_errors : List String
  current_temp : Option JVal
  debugger_hits : ℕ
  raised : Bool
  deriving DecidableEq, Repr

/-- One iteration of the per-field loop of `get_wunderground`
(lines 230-252 of `wunderground.py`).  A missing key is recorded in
`has_errors`; a null value is skipped; a non-numeric `pressure` value
raises at `value -= PRESSURE_OFFSET` (outside any try); the
temperature-tracking variable is assigned before the guarded
`gauge.set`; a `gauge.set` failure on a non-numeric value is swallowed
by the bare `except` after invoking the debugger, with no log. -/
def processField (data : WData) (s : FieldLoopSt) (key : String) : FieldLoopSt :=
  if s.raised then s
  else
    match lookupJ data key with
    | none => { s with has_errors := s.has_errors ++ [key] }
    | some JVal.null => s
    | some v =>
      if key = "pressure" then
        match v with
        | JVal.num q => { s with store := setSeries s.store key (q - PRESSURE_OFFSET) }
        | _ => { s with raised := true }
      else
        let ct := if key = "temp" then some v
                  else if s.current_temp = none ∧ key ∈ TEMP_FALLBACK_KEYS then some v
                  else s.current_temp
        match v with
        | JVal.num q => { s with current_temp := ct, store := setSeries s.store key q }
        | _ => { s with current_temp := ct, debugger_hits := s.debugger_hits + 1 }

/-- Temperature change tracking step of `get_wunderground`
(lines 254-275 of `wunderground.py`).  A first reading always records
the change time and stores the value; afterwards the change time is
recorded exactly when `abs(previous_temp - current_temp) >= 0.05`;
subtracting non-numeric cached or current values raises a TypeError. -/
def track_temperature (current_time : ℚ) (count : ℕ) (prev : Option JVal)
    (l : FieldLoopSt) : WResult :=
  match l.current_temp with
  | none => ⟨⟨prev, count, l.store⟩, false, l.debugger_hits⟩
  | some ct =>
    match prev with
    | none =>
      ⟨⟨some ct, count, setSeries l.store "temperature_last_change" current_time⟩,
        false, l.debugger_hits⟩
    | some p =>
      match p, ct with
      | JVal.num a, JVal.num b =>
        if 0.05 ≤ |a - b| then
          ⟨⟨some ct, count, setSeries l.store "temperature_last_change" current_time⟩,
            false, l.debugger_hits⟩
        else ⟨⟨some p, count, l.store⟩, false, l.debugger_hits⟩
      | _, _ => ⟨⟨some p, count, l.store⟩, true, l.debugger_hits⟩

/-- Model of `get_wunderground(station)` (lines 195-279 of
`wunderground.py`).  The input `fetch` is the value of
`get_data(station_id, api_key)`: `none` for any fetch failure
(timeout, network error, unexpected error), otherwise the observation
dict together with the elapsed request duration.  The falsiness test
`if not data: return` also treats an empty dict as a failed fetch. -/
def get_wunderground (st : WState) (current_time : ℚ)
    (fetch : Option (WData × ℚ)) : WResult :=
  match fetch with
  | none => ⟨st, false, 0⟩
  | some (data, fetch_duration) =>
    if data = [] then ⟨st, false, 0⟩
    else
      let store := PROPS_KEYS.foldl createSeries st.store
      let store := HEALTH_KEYS.foldl createSeries store
      let store := setSeries store "last_fetch_time" current_time
      let store := setSeries store "last_fetch_duration" fetch_duration
      let count := st.successful_request_count + 1
      let store := setSeries store "successful_requests_total" (count : ℚ)
      let loopR := PROPS_KEYS.foldl (processField data) ⟨store, [], none, 0, false⟩
      if loopR.raised then
        ⟨⟨st.previous_temperature, count, loopR.store⟩, true, loopR.debugger_hits⟩
      else track_temperature current_time count st.previous_temperature loopR

/-- Initial per-station state: no cached temperature, zero successful
requests, and no series created for the station. -/
def initialWState : WState := ⟨none, 0, []⟩

/-- Repeated cycles for one weather station: each cycle supplies the
wall clock time and the fetch outcome of that cycle. -/
def runWeatherCycles (st : WState) (cycles : List (ℚ × Option (WData × ℚ))) : WState :=
  cycles.foldl (fun s c => (get_wunderground s c.1 c.2).state) st

/-!
River exporter (`src/river_flow.py`).
-/

/-- Value-extraction part of `get_level(river_code, serie)`
(lines 104-119 of `river_flow.py`), applied to the fetched
`measures["Serie"]["ObssHydro"]` observation series; each sample is a
`[timestamp, value]` pair whose timestamp is irrelevant here, so a
sample is embedded as its (possibly null) value.  An empty series
yields no data; a null latest value falls back to the second-to-last
sample when one exists. -/
def get_level (obs_hydro : List (Option ℚ)) : Option ℚ :=
  match obs_hydro.getLast? with
  | none => none
  | some latest =>
    match latest with
    | some v => some v
    | none =>
      if obs_hydro.length > 1 then (obs_hydro.get? (obs_hydro.length - 2)).getD none
      else none

/-- Mutable per-station state of `river_flow.py`: the six labeled
gauge children of the station (a `labels` call creates a child at
value 0, so a child is embedded as its current value), the
`successful_river_requests[station_key]` counter (absent dict entry
read as 0 via `.get`), and the `previous_river_data[station_key]`
cache.  The cache dict entry, when present, always has the shape
`{flow: value, height: value}` with possibly-null values;
`previous_data.get(key)` yields null both for an absent station entry
and for a stored null, so the cache is embedded as the pair of its two
lookups. -/
structure RiverState where
  flow_gauge : ℚ
  height_gauge : ℚ
  last_fetch_time : ℚ
  last_fetch_duration : ℚ
  successful_requests_gauge : ℚ
  data_last_change : ℚ
  successful_river_requests : ℕ
  previous_river_data : Option ℚ × Option ℚ
  deriving DecidableEq, Repr

/-- Model of `update_river_data(station_config)` (lines 152-220 of
`river_flow.py`).  The inputs `flowFetch` and `heightFetch` are the
outcomes of the two `get_level` calls: `none` when no value was
obtained (fetch failure or no data), otherwise the value and the
request duration.  Health metrics are touched only when at least one
of the two sub-fetches succeeded. -/
def update_river_data (st : RiverState) (current_time : ℚ)
    (flowFetch heightFetch : Option (ℚ × ℚ)) : RiverState :=
  let (st1, total1, durs1) :=
    match flowFetch with
    | some (v, d) => ({ st with flow_gauge := v }, 1, [d])
    | none => (st, 0, [])
  let (st2, total_requests, successful_durations) :=
    match heightFetch with
    | some (v, d) => ({ st1 with height_gauge := v }, total1 + 1, durs1 ++ [d])
    | none => (st1, total1, durs1)
  if total_requests > 0 then
    let count := st2.successful_river_requests + total_requests
    let st3 := { st2 with
      last_fetch_time := current_time,
      last_fetch_duration := successful_durations.sum / (successful_durations.length : ℚ),
      successful_river_requests := count,
      successful_requests_gauge := (count : ℚ) }
    let current_data : Option ℚ × Option ℚ :=
      (flowFetch.map Prod.fst, heightFetch.map Prod.fst)
    let previous_data := st3.previous_river_data
    let data_changed :=
      (match current_data.1 with
       | some v => decide (previous_data.1 ≠ some v)
       | none => false)
      || (match current_data.2 with
          | some v => decide (previous_data.2 ≠ some v)
          | none => false)
    if data_changed then
      { st3 with data_last_change := current_time, previous_river_data := current_data }
    else st3
  else st2

/-- Number of successful sub-fetches of one river cycle. -/
def numRiverSuccesses (flowFetch heightFetch : Option (ℚ × ℚ)) : ℕ :=
  (if flowFetch.isSome then 1 else 0) + (if heightFetch.isSome then 1 else 0)

/-- Number of successful sub-fetches of one weather cycle: the single
`get_data` call, counted when it returned a non-empty dict. -/
def numWeatherSuccesses (fetch : Option (WData × ℚ)) : ℕ :=
  match fetch with
  | none => 0
  | some (data, _) => if data = [] then 0 else 1

/-- Repeated cycles for one river station: each cycle supplies the
wall clock time and the two sub-fetch outcomes. -/
def runRiverCycles (st : RiverState)
    (cycles : List (ℚ × Option (ℚ × ℚ) × Option (ℚ × ℚ))) : RiverState :=
  cycles.foldl (fun s c => update_river_data s c.1 c.2.1 c.2.2) st

/-!
Scheduler loops (the `__main__` blocks of both programs).
-/

/-- Outcome of processing one entity in a cycle: it either completes
or raises an exception. -/
inductive StepOutcome where
  | ok
  | raises
  deriving DecidableEq, Repr

/-- Which configured stations complete their processing in one river
cycle.  `generate_hauteurs` (lines 223-226 of `river_flow.py`) runs
the stations sequentially with no per-station handler, so the first
raising station aborts the cycle: it is reached but the remaining
stations are not. -/
def riverAttempted : List StepOutcome → List Bool
  | [] => []
  | StepOutcome.ok :: rest => true :: riverAttempted rest
  | StepOutcome.raises :: rest => true :: rest.map (fun _ => false)

/-- Which configured stations complete their processing in one weather
cycle.  The station loop of `wunderground.py` (lines 349-353) wraps
each `get_wunderground(station)` call in its own try block, so every
station is reached regardless of earlier failures. -/
def weatherAttempted (os : List StepOutcome) : List Bool :=
  os.map (fun _ => true)

/-- Observable state of the `while True` scheduler loop shared by both
programs: the `first` flag, how often `start_http_server` has been
called, how many loop iterations have completed, and which stations
each completed cycle processed. -/
structure MainState where
  first : Bool
  serverStarts : ℕ
  iterationsDone : ℕ
  attemptedLog : List (List Bool)
  deriving DecidableEq, Repr

/-- State at process start: `first = True`, server not yet started. -/
def mainInit : MainState := ⟨true, 0, 0, []⟩

/-- One iteration of the scheduler loop: run the cycle inside
`try/except` (an exception raised by the cycle is caught and logged,
so the loop control flow does not depend on the cycle outcome), then
start the metrics server if this was the first iteration. -/
def mainStep (attempted : List StepOutcome → List Bool)
    (s : MainState) (cycle : List StepOutcome) : MainState :=
  let s := { s with iterationsDone := s.iterationsDone + 1,
                    attemptedLog := s.attemptedLog ++ [attempted cycle] }
  if s.first then { s with first := false, serverStarts := s.serverStarts + 1 }
  else s

/-- Run the scheduler loop over a finite trace of cycles. -/
def mainRun (attempted : List StepOutcome → List Bool)
    (s : MainState) (cycles : List (List StepOutcome)) : MainState :=
  cycles.foldl (mainStep attempted) s

/-- Station metric store after one successful `get_wunderground` call
started from an empty store whose observation dict contained a lone
numeric `temp` entry: every series of the station exists, `temp` holds
the reading, the health series hold fetch time, duration and count,
and `temperature_last_change` still holds its creation value 0. -/
def tempOnlyStore (c t d : ℚ) (n : ℕ) : MStore :=
  [("temp", c), ("dewpt", 0), ("heatIndex", 0), ("windChill", 0), ("humidity", 0),
   ("precipRate", 0), ("precipTotal", 0), ("windSpeed", 0), ("windGust", 0),
   ("winddir", 0), ("uv", 0), ("solarRadiation", 0), ("pressure", 0),
   ("station_data_age", 0), ("last_fetch_time", t), ("last_fetch_duration", d),
   ("successful_requests_total", ((n + 1 : ℕ) : ℚ)), ("temperature_last_change", 0)]

/-- The `has_errors` list produced by the per-field loop when the
observation dict contains only a `temp` entry. -/
def tempOnlyErrs : List String :=
  ["dewpt", "heatIndex", "windChill", "humidity", "precipRate", "precipTotal",
   "windSpeed", "windGust", "winddir", "uv", "solarRadiation", "pressure",
   "station_data_age"]


/-- Station metric store of `wunderground.py` right after the health
series of a cycle were written and before the per-field loop ran,
starting from an empty store: every series exists at its creation
value 0 except the three health series just set. -/
def baseStore (t d : ℚ) (n : ℕ) : MStore :=
  [("temp", 0), ("dewpt", 0), ("heatIndex", 0), ("windChill", 0), ("humidity", 0),
   ("precipRate", 0), ("precipTotal", 0), ("windSpeed", 0), ("windGust", 0),
   ("winddir", 0), ("uv", 0), ("solarRadiation", 0), ("pressure", 0),
   ("station_data_age", 0), ("last_fetch_time", t), ("last_fetch_duration", d),
   ("successful_requests_total", ((n + 1 : ℕ) : ℚ)), ("temperature_last_change", 0)]

/-- The `has_errors` list produced by the per-field loop when the
observation dict contains only a `dewpt` entry. -/
def dewptOnlyErrs : List String :=
  ["temp", "heatIndex", "windChill", "humidity", "precipRate", "precipTotal",
   "windSpeed", "windGust", "winddir", "uv", "solarRadiation", "pressure",
   "station_data_age"]

/-- Observation dict whose `temp` entry is a non-numeric string while
`humidity` carries a normal reading. -/
def malformedData : WData := [("temp", JVal.str "N/A"), ("humidity", JVal.num 55)]

/-- The `has_errors` list produced by the per-field loop on
`malformedData`. -/
def malformedErrs : List String :=
  ["dewpt", "heatIndex", "windChill", "precipRate", "precipTotal",
   "windSpeed", "windGust", "winddir", "uv", "solarRadiation", "pressure",
   "station_data_age"]

/-!
Theorems.
-/

/-- Store pipeline of one successful `get_wunderground` call before
the per-field loop: creating every station series on the empty store
and writing the three health values yields `baseStore`. -/
theorem weather_store_after_health (t d : ℚ) (n : ℕ) :
    setSeries (setSeries (setSeries
        (HEALTH_KEYS.foldl createSeries (PROPS_KEYS.foldl createSeries ([] : MStore)))
        "last_fetch_time" t) "last_fetch_duration" d)
      "successful_requests_total" ((n + 1 : ℕ) : ℚ) = baseStore t d n := by
  simp [PROPS_KEYS, HEALTH_KEYS, createSeries, lookupSeries, setSeries, baseStore]

/-- Per-field loop on a dict holding a lone numeric `temp` entry:
`temp` is written, every other key lands in `has_errors`, the
temperature-tracking variable picks up the value, and neither the
debugger nor an exception is triggered. -/
theorem weather_loop_temp_only (c : ℚ) (s : MStore) :
    PROPS_KEYS.foldl (processField [("temp", JVal.num c)]) ⟨s, [], none, 0, false⟩
      = ⟨setSeries s "temp" c, tempOnlyErrs, some (JVal.num c), 0, false⟩ := by
  simp [PROPS_KEYS, processField, lookupJ, TEMP_FALLBACK_KEYS, tempOnlyErrs]

/-- Per-field loop on a dict holding a lone numeric `dewpt` entry: the
temperature-tracking variable picks up the value through the fallback
list. -/
theorem weather_loop_dewpt_only (c : ℚ) (s : MStore) :
    PROPS_KEYS.foldl (processField [("dewpt", JVal.num c)]) ⟨s, [], none, 0, false⟩
      = ⟨setSeries s "dewpt" c, dewptOnlyErrs, some (JVal.num c), 0, false⟩ := by
  simp [PROPS_KEYS, processField, lookupJ, TEMP_FALLBACK_KEYS, dewptOnlyErrs]

/-- Per-field loop on `malformedData`: the non-numeric `temp` value
triggers the bare except branch once (debugger, no log, no write), the
`humidity` reading is still written, no exception escapes, and the
tracking variable holds the malformed value. -/
theorem weather_loop_malformed (s : MStore) :
    PROPS_KEYS.foldl (processField malformedData) ⟨s, [], none, 0, false⟩
      = ⟨setSeries s "humidity" 55, malformedErrs, some (JVal.str "N/A"), 1, false⟩ := by
  simp [PROPS_KEYS, processField, lookupJ, TEMP_FALLBACK_KEYS, malformedData, malformedErrs]

/-- Writing the `temp` reading into `baseStore` yields `tempOnlyStore`. -/
theorem setTemp_base (c t d : ℚ) (n : ℕ) :
    setSeries (baseStore t d n) "temp" c = tempOnlyStore c t d n := by
  simp [baseStore, setSeries, tempOnlyStore]

/-- Characterization of one `get_wunderground` call on a fresh store
with a cached numeric temperature and an observation dict holding a
lone numeric `temp` entry: the cache and the change-time series are
updated exactly when the absolute difference reaches 0.05. -/
theorem get_wunderground_temp_only (p c t d : ℚ) (n : ℕ) :
    get_wunderground ⟨some (JVal.num p), n, []⟩ t (some ([("temp", JVal.num c)], d))
      = if 0.05 ≤ |p - c| then
          ⟨⟨some (JVal.num c), n + 1,
            setSeries (tempOnlyStore c t d n) "temperature_last_change" t⟩, false, 0⟩
        else ⟨⟨some (JVal.num p), n + 1, tempOnlyStore c t d n⟩, false, 0⟩ := by
  simp only [get_wunderground]
  rw [if_neg (by simp), weather_store_after_health, weather_loop_temp_only, setTemp_base]
  rfl

/-- One `get_wunderground` call on a fresh store with no cached
temperature and a lone numeric `temp` entry: the first reading is
stored and the change time is recorded unconditionally. -/
theorem get_wunderground_first_temp (c t d : ℚ) (n : ℕ) :
    get_wunderground ⟨none, n, []⟩ t (some ([("temp", JVal.num c)], d))
      = ⟨⟨some (JVal.num c), n + 1,
          setSeries (tempOnlyStore c t d n) "temperature_last_change" t⟩, false, 0⟩ := by
  simp only [get_wunderground]
  rw [if_neg (by simp), weather_store_after_health, weather_loop_temp_only, setTemp_base]
  rfl

/-- One `get_wunderground` call on a fresh store with no cached
temperature and a lone numeric `dewpt` entry: the fallback value is
treated as the first temperature reading. -/
theorem get_wunderground_first_dewpt (c t d : ℚ) (n : ℕ) :
    get_wunderground ⟨none, n, []⟩ t (some ([("dewpt", JVal.num c)], d))
      = ⟨⟨some (JVal.num c), n + 1,
          setSeries (setSeries (baseStore t d n) "dewpt" c)
            "temperature_last_change" t⟩, false, 0⟩ := by
  simp only [get_wunderground]
  rw [if_neg (by simp), weather_store_after_health, weather_loop_dewpt_only]
  rfl

/-- One `get_wunderground` call on a fresh station state with
`malformedData`: the call completes without raising, the bare except
branch fired once for the malformed `temp` field, `humidity` and the
health series were written, and the malformed string was cached as the
first temperature reading. -/
theorem get_wunderground_malformed_eval :
    get_wunderground initialWState 1000 (some (malformedData, 2))
      = ⟨⟨some (JVal.str "N/A"), 1,
          setSeries (setSeries (baseStore 1000 2 0) "humidity" 55)
            "temperature_last_change" 1000⟩, false, 1⟩ := by
  simp only [get_wunderground, initialWState, malformedData]
  rw [if_neg (by simp)]
  rw [show ((0 : ℕ) + 1 : ℕ) = 1 from rfl]
  rw [weather_store_after_health 1000 2 0]
  rw [show [("temp", JVal.str "N/A"), ("humidity", JVal.num 55)] = malformedData from rfl]
  rw [weather_loop_malformed]
  rfl

/-- C1: a cycle with zero successful sub-fetches leaves the entity
state untouched.  For a river station, both `get_level` calls failing
means the guarded health block of `update_river_data` never runs and
the state is returned unchanged.  For a weather station, a failed
`get_data` (and likewise an empty observation dict) makes
`get_wunderground` return before creating or writing any metric, so
`last_fetch_time`, `last_fetch_duration`, `successful_requests_total`,
the previous-value cache and the last-change time all keep their
prior values. -/
theorem C1_health_frame :
    (∀ (st : RiverState) (t : ℚ), update_river_data st t none none = st)
    ∧ (∀ (st : WState) (t : ℚ), get_wunderground st t none = ⟨st, false, 0⟩)
    ∧ (∀ (st : WState) (t d : ℚ), get_wunderground st t (some ([], d)) = ⟨st, false, 0⟩) :=
  ⟨fun _ _ => rfl, fun _ _ => rfl, fun _ _ _ => rfl⟩

/-- C3 counterexample: the claim says a difference of exactly 0.05
leaves the cached value and the change time unchanged, but the code
tests `temp_diff >= 0.05`, so with cached temperature 20 and a new
reading 401/20 (difference exactly 0.05) both the cache and
`temperature_last_change` are updated. -/
theorem C3_counterexample :
    |(20 : ℚ) - 401 / 20| = 0.05
    ∧ (get_wunderground ⟨some (JVal.num 20), 5, []⟩ 1000
        (some ([("temp", JVal.num (401 / 20))], 1))).state.previous_temperature
      = some (JVal.num (401 / 20))
    ∧ lookupSeries (get_wunderground ⟨some (JVal.num 20), 5, []⟩ 1000
        (some ([("temp", JVal.num (401 / 20))], 1))).state.store "temperature_last_change"
      = some 1000 := by
  have habs : |(20 : ℚ) - 401 / 20| = 0.05 := by
    rw [abs_sub_comm, abs_of_nonneg (by norm_num)]
    norm_num
  have h : (0.05 : ℚ) ≤ |20 - 401 / 20| := le_of_eq habs.symm
  refine ⟨habs, ?_, ?_⟩
  · rw [get_wunderground_temp_only, if_pos h]
  · rw [get_wunderground_temp_only, if_pos h]
    simp [tempOnlyStore, setSeries, lookupSeries]

/-- C3 amended: with a cached numeric temperature and a new
tracked-temperature reading, the cache and `temperature_last_change`
are updated if and only if the absolute difference is at least 0.05
(so 0.04 leaves both unchanged while 0.05 and 0.06 update both). -/
theorem C3_tolerance_amended (p c t d : ℚ) (n : ℕ) :
    ((get_wunderground ⟨some (JVal.num p), n, []⟩ t
        (some ([("temp", JVal.num c)], d))).state.previous_temperature
      = if 0.05 ≤ |p - c| then some (JVal.num c) else some (JVal.num p))
    ∧ (lookupSeries (get_wunderground ⟨some (JVal.num p), n, []⟩ t
        (some ([("temp", JVal.num c)], d))).state.store "temperature_last_change"
      = if 0.05 ≤ |p - c| then some t else some 0) := by
  rw [get_wunderground_temp_only]
  by_cases h : (0.05 : ℚ) ≤ |p - c|
  · simp only [if_pos h]
    simp [tempOnlyStore, setSeries, lookupSeries]
  · simp only [if_neg h]
    simp [tempOnlyStore, setSeries, lookupSeries]

/-- C6: the first-ever successful observation of a tracked field (no
cached previous value) records the observation time as the last-change
time and stores the value, whatever the value is.  Shown for the river
flow field, the river height field, and the weather temperature (both
via `temp` and via the `dewpt` fallback). -/
theorem C6_first_observation :
    (∀ (g1 g2 g3 g4 g5 g6 v d t : ℚ) (cnt : ℕ),
      (update_river_data ⟨g1, g2, g3, g4, g5, g6, cnt, (none, none)⟩ t
          (some (v, d)) none).data_last_change = t
      ∧ (update_river_data ⟨g1, g2, g3, g4, g5, g6, cnt, (none, none)⟩ t
          (some (v, d)) none).previous_river_data = (some v, none)
      ∧ (update_river_data ⟨g1, g2, g3, g4, g5, g6, cnt, (none, none)⟩ t
          none (some (v, d))).data_last_change = t
      ∧ (update_river_data ⟨g1, g2, g3, g4, g5, g6, cnt, (none, none)⟩ t
          none (some (v, d))).previous_river_data = (none, some v))
    ∧ (∀ (c t d : ℚ) (n : ℕ),
      (get_wunderground ⟨none, n, []⟩ t
          (some ([("temp", JVal.num c)], d))).state.previous_temperature
        = some (JVal.num c)
      ∧ lookupSeries (get_wunderground ⟨none, n, []⟩ t
          (some ([("temp", JVal.num c)], d))).state.store "temperature_last_change"
        = some t
      ∧ (get_wunderground ⟨none, n, []⟩ t
          (some ([("dewpt", JVal.num c)], d))).state.previous_temperature
        = some (JVal.num c)
      ∧ lookupSeries (get_wunderground ⟨none, n, []⟩ t
          (some ([("dewpt", JVal.num c)], d))).state.store "temperature_last_change"
        = some t) := by
  refine ⟨fun g1 g2 g3 g4 g5 g6 v d t cnt => ⟨rfl, rfl, rfl, rfl⟩,
          fun c t d n => ⟨?_, ?_, ?_, ?_⟩⟩
  · rw [get_wunderground_first_temp]
  · rw [get_wunderground_first_temp]
    simp [tempOnlyStore, setSeries, lookupSeries]
  · rw [get_wunderground_first_dewpt]
  · rw [get_wunderground_first_dewpt]
    simp [baseStore, setSeries, lookupSeries]

/-- C9: evidence for the code bug.  On an observation dict whose
`temp` value is the non-numeric string N/A, the health-recording loop
does not log-and-skip the malformed field as specified: the bare
except branch around `gauge.set` fires (executing
`import pdb; pdb.set_trace()` with no diagnostic log) while the other
fields are still processed, and the malformed string is even cached as
the previous temperature. -/
theorem C9_malformed_field_debugger :
    (get_wunderground initialWState 1000 (some (malformedData, 2))).raised = false
    ∧ (get_wunderground initialWState 1000 (some (malformedData, 2))).debugger_hits = 1
    ∧ lookupSeries (get_wunderground initialWState 1000
        (some (malformedData, 2))).state.store "humidity" = some 55
    ∧ (get_wunderground initialWState 1000
        (some (malformedData, 2))).state.previous_temperature = some (JVal.str "N/A") := by
  rw [get_wunderground_malformed_eval]
  exact ⟨rfl, rfl, by simp [baseStore, setSeries, lookupSeries], rfl⟩

/-- C10: a failed weather fetch makes the per-station processing
return before any series of that station is created or written, so a
station whose fetches never succeeded exposes no series at all, not
even zero-valued health gauges. -/
theorem C10_no_data_no_series :
    (∀ (st : WState) (t : ℚ), get_wunderground st t none = ⟨st, false, 0⟩)
    ∧ (∀ times : List ℚ,
        (runWeatherCycles initialWState (times.map (fun t => (t, none)))).store = []) := by
  refine ⟨fun _ _ => rfl, ?_⟩
  intro times
  induction times with
  | nil => rfl
  | cons a as ih =>
    simpa only [List.map_cons, runWeatherCycles, List.foldl_cons] using ih

/-- The river success counter grows by exactly the number of
successful sub-fetches of the cycle. -/
theorem update_river_counter (st : RiverState) (t : ℚ) (f h : Option (ℚ × ℚ)) :
    (update_river_data st t f h).successful_river_requests
      = st.successful_river_requests + numRiverSuccesses f h := by
  rcases f with _ | ⟨v, d⟩ <;> rcases h with _ | ⟨w, e⟩ <;>
    simp [update_river_data, numRiverSuccesses] <;> split <;> rfl

/-- The temperature-tracking step never touches the success counter. -/
theorem track_temperature_count (t : ℚ) (cnt : ℕ) (prev : Option JVal)
    (l : FieldLoopSt) :
    (track_temperature t cnt prev l).state.successful_request_count = cnt := by
  unfold track_temperature
  repeat' split
  all_goals rfl

/-- The weather success counter grows by exactly the number of
successful fetches of the cycle, on every exit path of
`get_wunderground` (the counter is incremented before the per-field
loop, so even a cycle that later raises keeps the increment). -/
theorem get_wunderground_count (st : WState) (t : ℚ) (fetch : Option (WData × ℚ)) :
    (get_wunderground st t fetch).state.successful_request_count
      = st.successful_request_count + numWeatherSuccesses fetch := by
  rcases fetch with _ | ⟨data, d⟩
  · rfl
  · by_cases hd : data = []
    · subst hd
      rfl
    · simp only [get_wunderground, numWeatherSuccesses, if_neg hd]
      split
      · rfl
      · rw [track_temperature_count]

/-- The river success counter never decreases across any sequence of
cycles. -/
theorem runRiverCycles_counter_mono :
    ∀ (cycles : List (ℚ × Option (ℚ × ℚ) × Option (ℚ × ℚ))) (st : RiverState),
      st.successful_river_requests
        ≤ (runRiverCycles st cycles).successful_river_requests
  | [], _ => le_refl _
  | c :: cs, st => by
    rw [show runRiverCycles st (c :: cs)
        = runRiverCycles (update_river_data st c.1 c.2.1 c.2.2) cs from rfl]
    refine le_trans ?_ (runRiverCycles_counter_mono cs _)
    rw [update_river_counter]
    exact Nat.le_add_right _ _

/-- The weather success counter never decreases across any sequence of
cycles. -/
theorem runWeatherCycles_counter_mono :
    ∀ (cycles : List (ℚ × Option (WData × ℚ))) (st : WState),
      st.successful_request_count
        ≤ (runWeatherCycles st cycles).successful_request_count
  | [], _ => le_refl _
  | c :: cs, st => by
    rw [show runWeatherCycles st (c :: cs)
        = runWeatherCycles (get_wunderground st c.1 c.2).state cs from rfl]
    refine le_trans ?_ (runWeatherCycles_counter_mono cs _)
    rw [get_wunderground_count]
    exact Nat.le_add_right _ _

/-- C4: `successful_requests_total` increases by exactly the number of
successful sub-fetches of each cycle (at most 2 for a river entity,
at most 1 for a weather entity), and is monotonically non-decreasing
over the life of the process, never reset. -/
theorem C4_counter_monotone :
    (∀ (st : RiverState) (t : ℚ) (f h : Option (ℚ × ℚ)),
      (update_river_data st t f h).successful_river_requests
        = st.successful_river_requests + numRiverSuccesses f h)
    ∧ (∀ f h : Option (ℚ × ℚ), numRiverSuccesses f h ≤ 2)
    ∧ (∀ (st : WState) (t : ℚ) (fetch : Option (WData × ℚ)),
      (get_wunderground st t fetch).state.successful_request_count
        = st.successful_request_count + numWeatherSuccesses fetch)
    ∧ (∀ fetch : Option (WData × ℚ), numWeatherSuccesses fetch ≤ 1)
    ∧ (∀ (cycles : List (ℚ × Option (ℚ × ℚ) × Option (ℚ × ℚ))) (st : RiverState),
      st.successful_river_requests
        ≤ (runRiverCycles st cycles).successful_river_requests)
    ∧ (∀ (cycles : List (ℚ × Option (WData × ℚ))) (st : WState),
      st.successful_request_count
        ≤ (runWeatherCycles st cycles).successful_request_count) := by
  refine ⟨update_river_counter, ?_, get_wunderground_count, ?_,
          runRiverCycles_counter_mono, runWeatherCycles_counter_mono⟩
  · intro f h
    rcases f with _ | _ <;> rcases h with _ | _ <;> simp [numRiverSuccesses]
  · intro fetch
    rcases fetch with _ | ⟨data, d⟩
    · exact Nat.zero_le 1
    · simp only [numWeatherSuccesses]
      split <;> omega

/-- One scheduler iteration always completes and bumps the iteration
count, whatever the cycle did. -/
theorem mainStep_iterations (att : List StepOutcome → List Bool)
    (s : MainState) (c : List StepOutcome) :
    (mainStep att s c).iterationsDone = s.iterationsDone + 1 := by
  simp only [mainStep]
  split <;> rfl

/-- One scheduler iteration records the attempted list of its cycle. -/
theorem mainStep_log (att : List StepOutcome → List Bool)
    (s : MainState) (c : List StepOutcome) :
    (mainStep att s c).attemptedLog = s.attemptedLog ++ [att c] := by
  simp only [mainStep]
  split <;> rfl

/-- The scheduler loop completes one iteration per cycle of the trace. -/
theorem mainRun_iterations (att : List StepOutcome → List Bool) :
    ∀ (cycles : List (List StepOutcome)) (s : MainState),
      (mainRun att s cycles).iterationsDone = s.iterationsDone + cycles.length
  | [], _ => rfl
  | c :: cs, s => by
    rw [show mainRun att s (c :: cs) = mainRun att (mainStep att s c) cs from rfl,
       mainRun_iterations att cs _, mainStep_iterations]
    simp only [List.length_cons]
    omega

/-- The scheduler loop logs one attempted list per cycle of the trace. -/
theorem mainRun_log (att : List StepOutcome → List Bool) :
    ∀ (cycles : List (List StepOutcome)) (s : MainState),
      (mainRun att s cycles).attemptedLog = s.attemptedLog ++ cycles.map att
  | [], s => by simp [mainRun]
  | c :: cs, s => by
    rw [show mainRun att s (c :: cs) = mainRun att (mainStep att s c) cs from rfl,
       mainRun_log att cs _, mainStep_log]
    simp

/-- Once the `first` flag is cleared, the server start count and the
flag itself never change again. -/
theorem mainRun_started (att : List StepOutcome → List Bool) :
    ∀ (cycles : List (List StepOutcome)) (s : MainState), s.first = false →
      (mainRun att s cycles).serverStarts = s.serverStarts
      ∧ (mainRun att s cycles).first = false
  | [], s, hf => ⟨rfl, hf⟩
  | c :: cs, s, hf => by
    have hstep : mainStep att s c
        = ⟨false, s.serverStarts, s.iterationsDone + 1, s.attemptedLog ++ [att c]⟩ := by
      simp [mainStep, hf]
    rw [show mainRun att s (c :: cs) = mainRun att (mainStep att s c) cs from rfl, hstep]
    exact mainRun_started att cs _ rfl

/-- The metrics server is started exactly at the end of the first
iteration: never on an empty trace, exactly once on any non-empty
trace. -/
theorem mainRun_starts (att : List StepOutcome → List Bool)
    (cycles : List (List StepOutcome)) :
    (mainRun att mainInit cycles).serverStarts = if cycles = [] then 0 else 1 := by
  cases cycles with
  | nil => rfl
  | cons c cs =>
    rw [if_neg (List.cons_ne_nil c cs)]
    rw [show mainRun att mainInit (c :: cs)
        = mainRun att (mainStep att mainInit c) cs from rfl]
    rw [show mainStep att mainInit c = ⟨false, 1, 1, [att c]⟩ from rfl]
    exact (mainRun_started att cs ⟨false, 1, 1, [att c]⟩ rfl).1

/-- C5: in every execution of either scheduler loop the metrics
endpoint is started exactly once, at the end of the first iteration
(which runs whether the cycle succeeded, partially failed, or raised
and was caught); later iterations never change the start count, and
every cycle of the trace completes an iteration. -/
theorem C5_server_start_once (cycles : List (List StepOutcome)) :
    ((mainRun riverAttempted mainInit cycles).serverStarts
        = if cycles = [] then 0 else 1)
    ∧ ((mainRun weatherAttempted mainInit cycles).serverStarts
        = if cycles = [] then 0 else 1)
    ∧ (mainRun riverAttempted mainInit cycles).iterationsDone = cycles.length
    ∧ (mainRun weatherAttempted mainInit cycles).iterationsDone = cycles.length := by
  refine ⟨mainRun_starts _ _, mainRun_starts _ _, ?_, ?_⟩ <;>
    · rw [mainRun_iterations]
      simp [mainInit]

/-- C2 counterexample: in the river exporter, when the first
configured station raises, the second station of the same cycle is
not processed (`generate_hauteurs` has no per-station handler), so the
claimed per-entity isolation fails as stated. -/
theorem C2_counterexample :
    riverAttempted [StepOutcome.raises, StepOutcome.ok] = [true, false]
    ∧ (riverAttempted [StepOutcome.raises, StepOutcome.ok]).get? 1 ≠ some true := by
  exact ⟨rfl, by decide⟩

/-- C2 amended: in the weather exporter every entity of a cycle is
processed regardless of earlier failures (per-entity try block); in
the river exporter an exception in one entity aborts the remaining
entities of that cycle, being caught only at the cycle boundary; in
both programs the scheduler loop itself survives every cycle, raising
or not. -/
theorem C2_isolation_amended :
    (∀ os : List StepOutcome, weatherAttempted os = os.map fun _ => true)
    ∧ (∀ (n : ℕ) (post : List StepOutcome),
        riverAttempted (List.replicate n StepOutcome.ok ++ StepOutcome.raises :: post)
          = List.replicate n true ++ true :: post.map fun _ => false)
    ∧ (∀ cycles : List (List StepOutcome),
        (mainRun riverAttempted mainInit cycles).iterationsDone = cycles.length
        ∧ (mainRun riverAttempted mainInit cycles).attemptedLog
            = cycles.map riverAttempted
        ∧ (mainRun weatherAttempted mainInit cycles).attemptedLog
            = cycles.map weatherAttempted) := by
  refine ⟨fun os => rfl, ?_, fun cycles => ⟨?_, ?_, ?_⟩⟩
  · intro n post
    induction n with
    | zero => rfl
    | succ k ih => simpa [List.replicate_succ, riverAttempted] using ih
  · rw [mainRun_iterations]
    simp [mainInit]
  · rw [mainRun_log]
    simp [mainInit]
  · rw [mainRun_log]
    simp [mainInit]

/-- C7: river extraction with a null latest sample falls back to the
second-to-last sample whenever one exists, and reports no data on an
empty series or on a single-sample series whose value is null. -/
theorem C7_null_fallback :
    (∀ (pre : List (Option ℚ)) (x : Option ℚ),
        get_level (pre ++ [x, none]) = x)
    ∧ get_level [] = none
    ∧ get_level [none] = none := by
  refine ⟨?_, rfl, rfl⟩
  intro pre x
  have h2 : pre ++ [x, none] = (pre ++ [x]) ++ [none] := by simp
  have hlen : ((pre ++ [x]) ++ [none]).length = pre.length + 2 := by
    simp [List.length_append]
  rw [h2, get_level.eq_def, List.getLast?_concat]
  simp only [hlen]
  rw [if_pos (by omega)]
  have hidx : pre.length + 2 - 2 = pre.length := by omega
  rw [hidx, List.get?_append (by simp), List.get?_concat_length]
  rfl

/-- C8 counterexample: with cached values flow = 5 and height = 2, a
cycle whose flow sub-fetch fails while the height reading changes to 3
replaces the whole cache with the current snapshot, overwriting the
cached flow 5 with the no-value marker instead of leaving it
unchanged as the claim states. -/
theorem C8_counterexample :
    (update_river_data ⟨0, 0, 0, 0, 0, 0, 10, (some 5, some 2)⟩ 100
        none (some (3, 1))).previous_river_data = (none, some 3)
    ∧ (update_river_data ⟨0, 0, 0, 0, 0, 0, 10, (some 5, some 2)⟩ 100
        none (some (3, 1))).previous_river_data.1 ≠ some 5 := by
  have e : (update_river_data ⟨0, 0, 0, 0, 0, 0, 10, (some 5, some 2)⟩ 100
      none (some (3, 1))).previous_river_data = (none, some 3) := rfl
  refine ⟨e, ?_⟩
  rw [e]
  simp

/-- C8 amended: a cycle in which the height sub-fetch succeeds but the
flow sub-fetch fails leaves the cache untouched only when the height
value matches its cached value; when the height changed (or had no
cached value), the whole current snapshot replaces the cache and the
failed flow entry is overwritten with the no-value marker, so a
subsequent successful flow reading is always detected as a change and
updates `data_last_change`. -/
theorem C8_cache_amended :
    (∀ (st : RiverState) (t v d : ℚ),
      (update_river_data st t none (some (v, d))).previous_river_data
        = if st.previous_river_data.2 ≠ some v then (none, some v)
          else st.previous_river_data)
    ∧ (∀ (g1 g2 g3 g4 g5 g6 : ℚ) (cnt : ℕ) (hv : Option ℚ) (t w e : ℚ),
      (update_river_data ⟨g1, g2, g3, g4, g5, g6, cnt, (none, hv)⟩ t
          (some (w, e)) none).data_last_change = t
      ∧ (update_river_data ⟨g1, g2, g3, g4, g5, g6, cnt, (none, hv)⟩ t
          (some (w, e)) none).previous_river_data = (some w, none)) := by
  constructor
  · intro st t v d
    by_cases hch : st.previous_river_data.2 = some v
    · simp [update_river_data, hch]
    · simp [update_river_data, hch]
  · intro g1 g2 g3 g4 g5 g6 cnt hv t w e
    exact ⟨rfl, rfl⟩

end W2P
